import Mathlib

/-!
Shallow embedding of tudat's acceleration-model assembly layer
(`createAccelerationModels.cpp`): the frame classifier, the direct
acceleration builders (central gravity, spherical-harmonics gravity,
aerodynamic, cannonball radiation pressure), the third-body composer,
the top-level assembler `createAccelerationModelsMap`, and the small
amount of external state they touch (lazily attached flight conditions).

C++ `boost::shared_ptr` mutation is modelled by value passing with an
explicit write-back into the body registry; C++ exceptions are modelled
with `Except String`; `double` quantities irrelevant to control flow are
modelled as `Int`; bound member-function closures are modelled by records
storing the bound data.
-/

namespace TudatSetup

/-- Position / acceleration vectors (the numeric field is irrelevant to
the assembly logic; `Int` keeps everything decidable). -/
abbrev Vec3 := Int × Int × Int

/-- Componentwise vector subtraction. -/
def vsub (a b : Vec3) : Vec3 := (a.1 - b.1, a.2.1 - b.2.1, a.2.2 - b.2.2)

/-- External rotational-state provider owned by a body.  Only its target
frame name matters to this layer. -/
structure RotationalEphemeris where
  targetFrame : String
  deriving DecidableEq

/-- The extra data a `SphericalHarmonicsGravityField` subtype carries over
the `GravityFieldModel` base class.  A successful
`dynamic_pointer_cast< SphericalHarmonicsGravityField >` corresponds to
this field being `some`. -/
structure SphericalHarmonicsFieldData where
  referenceRadius : Int
  /-- Frame in which the field coefficients are fixed. -/
  fixedReferenceFrame : String
  deriving DecidableEq

/-- Gravity field model of a body (`getGravitationalParameter` is the base
class accessor used by both builders). -/
structure GravityFieldModel where
  gravitationalParameter : Int
  sphericalHarmonic : Option SphericalHarmonicsFieldData
  deriving DecidableEq

/-- Radiation pressure interface of an undergoing body for one exerting
body. -/
structure RadiationPressureInterface where
  currentRadiationPressure : Int
  radiationPressureCoefficient : Int
  area : Int
  deriving DecidableEq

/-- Aerodynamic coefficient interface of a body. -/
structure AerodynamicCoefficientInterface where
  areCoefficientsInAerodynamicFrame : Bool
  areCoefficientsInNegativeAxisDirection : Bool
  referenceArea : Int
  deriving DecidableEq

/-- A body record as seen through the capability-query interface used by
the assembly layer.  `flightConditions` stores the identity of the
attached flight-conditions object (`none` = not yet attached);
`atmosphereModel` / `shapeModel` record presence of those capabilities
(the source only ever compares them against `NULL`). -/
structure Body where
  position : Vec3
  bodyMass : Int
  gravityFieldModel : Option GravityFieldModel
  atmosphereModel : Bool
  shapeModel : Bool
  aerodynamicCoefficientInterface : Option AerodynamicCoefficientInterface
  radiationPressureInterfaces : List (String × RadiationPressureInterface)
  flightConditions : Option Nat
  rotationalEphemeris : Option RotationalEphemeris
  deriving DecidableEq

/-- `AccelerationSettings` as a closed tagged union: the tag of the source
together with the payload of the concrete settings subtype that the
source obtains by downcast. -/
inductive AccelerationSettings where
  | centralGravity
  | sphericalHarmonicGravity (maximumDegree maximumOrder : Nat)
  | mutualSphericalHarmonicGravity
  | aerodynamic
  | cannonBallRadiationPressure
  | thrust
  deriving DecidableEq

/-- Modelled from the spec: the numeric value of the acceleration-type
enumeration (its declaring header is not under src/); numbering follows
the spec's listing order of the tag set. -/
def AccelerationSettings.accelerationType : AccelerationSettings → Nat
  | .centralGravity => 0
  | .sphericalHarmonicGravity _ _ => 1
  | .mutualSphericalHarmonicGravity => 2
  | .aerodynamic => 3
  | .cannonBallRadiationPressure => 4
  | .thrust => 5

/-- A bound `boost::function< double( ) >` as built by the gravity
builders: either the gravitational-parameter getter bound to one field,
or `evaluateDoubleFunctions` bound to two such closures. -/
inductive DoubleFunction where
  | getGravitationalParameter (field : GravityFieldModel)
  | evaluateDoubleFunctions (function1 function2 : DoubleFunction)
  deriving DecidableEq

/-- Evaluation of a bound double closure; the `evaluateDoubleFunctions`
case is the source's `function1( ) + function2( )`. -/
def DoubleFunction.eval : DoubleFunction → Int
  | .getGravitationalParameter field => field.gravitationalParameter
  | .evaluateDoubleFunctions function1 function2 => function1.eval + function2.eval

/-- `CentralGravitationalAccelerationModel3d`: the data bound into its
constructor (position closures store the bound body). -/
structure CentralGravitationalAccelerationModel3d where
  positionOfBodySubjectToAcceleration : Body
  gravitationalParameterFunction : DoubleFunction
  positionOfBodyExertingAcceleration : Body
  deriving DecidableEq

/-- `SphericalHarmonicsGravitationalAccelerationModelXd`: the data bound
into its constructor; the coefficient closures store the bound field and
the maximum degree and order from the settings. -/
structure SphericalHarmonicsGravitationalAccelerationModelXd where
  positionOfBodySubjectToAcceleration : Body
  gravitationalParameterFunction : DoubleFunction
  referenceRadius : Int
  cosineCoefficientFunction : GravityFieldModel × Nat × Nat
  sineCoefficientFunction : GravityFieldModel × Nat × Nat
  positionOfBodyExertingAcceleration : Body
  deriving DecidableEq

/-- `ThirdBodyCentralGravityAcceleration`: holds the two direct legs. -/
structure ThirdBodyCentralGravityAcceleration where
  accelerationModelForBodyUndergoingAcceleration : CentralGravitationalAccelerationModel3d
  accelerationModelForCentralBody : CentralGravitationalAccelerationModel3d
  deriving DecidableEq

/-- `AerodynamicAcceleration`: the data bound into its constructor
(`flightConditions` is the identity of the bound flight-conditions
object whose density and airspeed getters are bound). -/
structure AerodynamicAcceleration where
  coefficientInterface : AerodynamicCoefficientInterface
  flightConditions : Nat
  massBody : Body
  referenceArea : Int
  areCoefficientsInNegativeAxisDirection : Bool
  deriving DecidableEq

/-- `CannonBallRadiationPressureAcceleration`: the data bound into its
constructor. -/
structure CannonBallRadiationPressureAcceleration where
  sourcePositionBody : Body
  acceleratedPositionBody : Body
  radiationPressureInterface : RadiationPressureInterface
  massBody : Body
  deriving DecidableEq

/-- The polymorphic `AccelerationModel< Eigen::Vector3d >` result. -/
inductive AccelerationModel3d where
  | centralGravity (m : CentralGravitationalAccelerationModel3d)
  | sphericalHarmonicGravity (m : SphericalHarmonicsGravitationalAccelerationModelXd)
  | thirdBodyCentralGravity (m : ThirdBodyCentralGravityAcceleration)
  | aerodynamic (m : AerodynamicAcceleration)
  | cannonBallRadiationPressure (m : CannonBallRadiationPressureAcceleration)
  deriving DecidableEq

/-- Evaluation of a direct central-gravity model, parameterized over the
external point-mass acceleration kernel (the force mathematics lives in
an external physics collaborator, out of scope of this layer): the model
feeds it the bound gravitational-parameter closure's value and the two
bound body positions. -/
def evaluateCentralGravity (kernel : Int → Vec3 → Vec3 → Vec3)
    (m : CentralGravitationalAccelerationModel3d) : Vec3 :=
  kernel m.gravitationalParameterFunction.eval
    m.positionOfBodySubjectToAcceleration.position
    m.positionOfBodyExertingAcceleration.position

/-- Modelled from the spec: `ThirdBodyCentralGravityAcceleration`'s
evaluation (its class body is not under src/) returns the direct
acceleration on the undergoing body minus the direct acceleration on the
central body. -/
def evaluateThirdBodyCentralGravity (kernel : Int → Vec3 → Vec3 → Vec3)
    (m : ThirdBodyCentralGravityAcceleration) : Vec3 :=
  vsub (evaluateCentralGravity kernel m.accelerationModelForBodyUndergoingAcceleration)
       (evaluateCentralGravity kernel m.accelerationModelForCentralBody)

/-- `std::map` lookup (`count` + `at`): first binding of a key. -/
def lookupName {α : Type} : List (String × α) → String → Option α
  | [], _ => none
  | (k, v) :: rest, name => if k = name then some v else lookupName rest name

/-- Write-back of an in-place `shared_ptr` mutation: replace the value
bound to `name` in the registry. -/
def updateBody : List (String × Body) → String → Body → List (String × Body)
  | [], _, _ => []
  | (k, v) :: rest, name, newBody =>
      if k = name then (k, newBody) :: updateBody rest name newBody
      else (k, v) :: updateBody rest name newBody

/-- Function to determine if a given frame is an inertial frame. -/
def isFrameInertial (frame : String) : Bool :=
  if frame = "SSB" ∨ frame = "" ∨ frame = "Inertial" then true else false

/-- Function to create central gravity acceleration model. -/
def createCentralGravityAcceleratioModel
    (bodyUndergoingAcceleration bodyExertingAcceleration : Body)
    (nameOfBodyUndergoingAcceleration nameOfBodyExertingAcceleration : String)
    (useCentralBodyFixedFrame : Bool) :
    Except String CentralGravitationalAccelerationModel3d :=
  -- Check if body is endowed with a gravity field model.
  match bodyExertingAcceleration.gravityFieldModel with
  | none =>
      .error ("Error, gravity field model not set when making central " ++
        " gravitational acceleration of " ++ nameOfBodyExertingAcceleration ++ " on " ++
        nameOfBodyUndergoingAcceleration)
  | some exertingField =>
      -- Set correct value for gravitational parameter.
      let gravitationalParameterFunction : DoubleFunction :=
        match useCentralBodyFixedFrame, bodyUndergoingAcceleration.gravityFieldModel with
        | true, some undergoingField =>
            .evaluateDoubleFunctions (.getGravitationalParameter exertingField)
              (.getGravitationalParameter undergoingField)
        | _, _ => .getGravitationalParameter exertingField
      .ok { positionOfBodySubjectToAcceleration := bodyUndergoingAcceleration,
            gravitationalParameterFunction := gravitationalParameterFunction,
            positionOfBodyExertingAcceleration := bodyExertingAcceleration }

/-- Function to create spherical harmonic gravity acceleration model. -/
def createSphericalHarmonicsGravityAcceleration
    (bodyUndergoingAcceleration bodyExertingAcceleration : Body)
    (nameOfBodyUndergoingAcceleration nameOfBodyExertingAcceleration : String)
    (accelerationSettings : AccelerationSettings)
    (useCentralBodyFixedFrame : Bool) :
    Except String SphericalHarmonicsGravitationalAccelerationModelXd :=
  -- Dynamic cast acceleration settings to required type and check consistency.
  match accelerationSettings with
  | .sphericalHarmonicGravity maximumDegree maximumOrder =>
      -- Get pointer to gravity field of central body and cast to required type
      -- (a missing field and a non-spherical-harmonics field both fail the cast).
      let sphericalHarmonicsCast : Option (GravityFieldModel × SphericalHarmonicsFieldData) :=
        match bodyExertingAcceleration.gravityFieldModel with
        | some field =>
            match field.sphericalHarmonic with
            | some data => some (field, data)
            | none => none
        | none => none
      match sphericalHarmonicsCast with
      | none =>
          .error ("Error, spherical harmonic gravity field model not set when " ++
            " making sh gravitational acceleration of " ++ nameOfBodyExertingAcceleration ++
            " on " ++ nameOfBodyUndergoingAcceleration)
      | some (sphericalHarmonicsGravityField, fieldData) =>
          let gravitationalParameterFunction : DoubleFunction :=
            match useCentralBodyFixedFrame, bodyUndergoingAcceleration.gravityFieldModel with
            | true, some undergoingField =>
                .evaluateDoubleFunctions
                  (.getGravitationalParameter sphericalHarmonicsGravityField)
                  (.getGravitationalParameter undergoingField)
            | _, _ => .getGravitationalParameter sphericalHarmonicsGravityField
          .ok { positionOfBodySubjectToAcceleration := bodyUndergoingAcceleration,
                gravitationalParameterFunction := gravitationalParameterFunction,
                referenceRadius := fieldData.referenceRadius,
                cosineCoefficientFunction :=
                  (sphericalHarmonicsGravityField, maximumDegree, maximumOrder),
                sineCoefficientFunction :=
                  (sphericalHarmonicsGravityField, maximumDegree, maximumOrder),
                positionOfBodyExertingAcceleration := bodyExertingAcceleration }
  | _ =>
      .error ("Error, acceleration settings inconsistent " ++
        " making sh gravitational acceleration of " ++ nameOfBodyExertingAcceleration ++
        " on " ++ nameOfBodyUndergoingAcceleration)

/-- Function to create a third body central gravity acceleration model:
both legs use the same exerting body and `useCentralBodyFixedFrame = false`. -/
def createThirdBodyCentralGravityAccelerationModel
    (bodyUndergoingAcceleration bodyExertingAcceleration centralBody : Body)
    (nameOfBodyUndergoingAcceleration nameOfBodyExertingAcceleration
      nameOfCentralBody : String) :
    Except String ThirdBodyCentralGravityAcceleration := do
  let legForUndergoingBody ← createCentralGravityAcceleratioModel
    bodyUndergoingAcceleration bodyExertingAcceleration
    nameOfBodyUndergoingAcceleration nameOfBodyExertingAcceleration false
  let legForCentralBody ← createCentralGravityAcceleratioModel
    centralBody bodyExertingAcceleration
    nameOfCentralBody nameOfBodyExertingAcceleration false
  .ok { accelerationModelForBodyUndergoingAcceleration := legForUndergoingBody,
        accelerationModelForCentralBody := legForCentralBody }

/-- Function to create an aerodynamic acceleration model.  Returns the
model together with the (possibly mutated) undergoing body and the next
fresh flight-conditions identity; `createFlightConditions` itself is an
external factory, Modelled from the spec: it produces a fresh
flight-conditions object, here the identity `freshFlightConditionsId`. -/
def createAerodynamicAcceleratioModel
    (bodyUndergoingAcceleration bodyExertingAcceleration : Body)
    (nameOfBodyUndergoingAcceleration nameOfBodyExertingAcceleration : String)
    (freshFlightConditionsId : Nat) :
    Except String (AerodynamicAcceleration × Body × Nat) :=
  -- Check existence of required environment models.
  match bodyUndergoingAcceleration.aerodynamicCoefficientInterface with
  | none =>
      .error ("Error when making aerodynamic acceleration, body " ++
        nameOfBodyUndergoingAcceleration ++ "has no aerodynamic coefficients.")
  | some aerodynamicCoefficients =>
      if bodyExertingAcceleration.atmosphereModel = false then
        .error ("Error when making aerodynamic acceleration, central body " ++
          nameOfBodyExertingAcceleration ++ " has no atmosphere model.")
      else if bodyExertingAcceleration.shapeModel = false then
        .error ("Error when making aerodynamic acceleration, central body " ++
          nameOfBodyExertingAcceleration ++ " has no shape model.")
      else
        -- Retrieve flight conditions; create object if not yet extant.
        let attachResult : Nat × Body × Nat :=
          match bodyUndergoingAcceleration.flightConditions with
          | some existingFlightConditions =>
              (existingFlightConditions, bodyUndergoingAcceleration, freshFlightConditionsId)
          | none =>
              (freshFlightConditionsId,
               { bodyUndergoingAcceleration with
                   flightConditions := some freshFlightConditionsId },
               freshFlightConditionsId + 1)
        let bodyFlightConditions := attachResult.1
        let updatedBody := attachResult.2.1
        let nextFreshId := attachResult.2.2
        .ok ({ coefficientInterface := aerodynamicCoefficients,
               flightConditions := bodyFlightConditions,
               massBody := updatedBody,
               referenceArea := aerodynamicCoefficients.referenceArea,
               areCoefficientsInNegativeAxisDirection :=
                 aerodynamicCoefficients.areCoefficientsInNegativeAxisDirection },
             updatedBody, nextFreshId)

/-- Function to create a cannonball radiation pressure acceleration model. -/
def createCannonballRadiationPressureAcceleratioModel
    (bodyUndergoingAcceleration bodyExertingAcceleration : Body)
    (nameOfBodyUndergoingAcceleration nameOfBodyExertingAcceleration : String) :
    Except String CannonBallRadiationPressureAcceleration :=
  -- Retrieve radiation pressure interface.
  match lookupName bodyUndergoingAcceleration.radiationPressureInterfaces
      nameOfBodyExertingAcceleration with
  | none =>
      .error ("Error when making radiation pressure, no radiation pressure interface found  in " ++
        nameOfBodyUndergoingAcceleration ++ " for body " ++ nameOfBodyExertingAcceleration)
  | some radiationPressureInterface =>
      .ok { sourcePositionBody := bodyExertingAcceleration,
            acceleratedPositionBody := bodyUndergoingAcceleration,
            radiationPressureInterface := radiationPressureInterface,
            massBody := bodyUndergoingAcceleration }

/-- Function to create acceleration model object.  Returns the model, the
(possibly mutated) undergoing body, and the next fresh flight-conditions
identity.  The `cannonBallRadiationPressure` case faithfully reproduces
the source's missing `break`: the model is built and control then falls
through into the `default` branch, which throws. -/
def createAccelerationModel
    (bodyUndergoingAcceleration bodyExertingAcceleration : Body)
    (accelerationSettings : AccelerationSettings)
    (nameOfBodyUndergoingAcceleration nameOfBodyExertingAcceleration : String)
    (centralBody : Option Body) (nameOfCentralBody : String)
    (freshFlightConditionsId : Nat) :
    Except String (AccelerationModel3d × Body × Nat) :=
  match accelerationSettings with
  | .centralGravity =>
      -- Check if body is a single-body central gravity acceleration (use third-body if not).
      if nameOfCentralBody = nameOfBodyExertingAcceleration ∨
          isFrameInertial nameOfCentralBody = true then
        -- Check if gravitational parameter to use is sum of the two bodies' parameters.
        let useCentralBodyFixedFrame : Bool :=
          if nameOfCentralBody = nameOfBodyExertingAcceleration then true else false
        (createCentralGravityAcceleratioModel bodyUndergoingAcceleration
            bodyExertingAcceleration nameOfBodyUndergoingAcceleration
            nameOfBodyExertingAcceleration useCentralBodyFixedFrame).map
          (fun m => (AccelerationModel3d.centralGravity m,
                     bodyUndergoingAcceleration, freshFlightConditionsId))
      else
        -- Create third body central gravity acceleration.
        match centralBody with
        | some currentCentralBody =>
            (createThirdBodyCentralGravityAccelerationModel bodyUndergoingAcceleration
                bodyExertingAcceleration currentCentralBody
                nameOfBodyUndergoingAcceleration nameOfBodyExertingAcceleration
                nameOfCentralBody).map
              (fun m => (AccelerationModel3d.thirdBodyCentralGravity m,
                         bodyUndergoingAcceleration, freshFlightConditionsId))
        | none =>
            -- The source dereferences a null central-body pointer here (undefined
            -- behavior); unreachable from createAccelerationModelsMap, which only
            -- leaves the central body unset for inertial central frames.
            .error "null central body dereferenced"
  | .sphericalHarmonicGravity _ _ =>
      if nameOfCentralBody = nameOfBodyExertingAcceleration ∨
          isFrameInertial nameOfCentralBody = true then
        let useCentralBodyFixedFrame : Bool :=
          if nameOfCentralBody = nameOfBodyExertingAcceleration then true else false
        (createSphericalHarmonicsGravityAcceleration bodyUndergoingAcceleration
            bodyExertingAcceleration nameOfBodyUndergoingAcceleration
            nameOfBodyExertingAcceleration accelerationSettings
            useCentralBodyFixedFrame).map
          (fun m => (AccelerationModel3d.sphericalHarmonicGravity m,
                     bodyUndergoingAcceleration, freshFlightConditionsId))
      else
        .error "Error, cannot yet make third body spherical harmonic acceleration."
  | .aerodynamic =>
      (createAerodynamicAcceleratioModel bodyUndergoingAcceleration
          bodyExertingAcceleration nameOfBodyUndergoingAcceleration
          nameOfBodyExertingAcceleration freshFlightConditionsId).map
        (fun r => (AccelerationModel3d.aerodynamic r.1, r.2.1, r.2.2))
  | .cannonBallRadiationPressure =>
      -- Missing break in the source: if the builder throws, that error
      -- propagates; if it succeeds, control falls through into the default
      -- branch and the "not recognized" error is thrown instead.
      (createCannonballRadiationPressureAcceleratioModel bodyUndergoingAcceleration
          bodyExertingAcceleration nameOfBodyUndergoingAcceleration
          nameOfBodyExertingAcceleration).bind
        (fun _ =>
          .error ("Error, acceleration model " ++
            toString accelerationSettings.accelerationType ++
            " not recognized when making acceleration model of" ++
            nameOfBodyExertingAcceleration ++ " on " ++ nameOfBodyUndergoingAcceleration))
  | _ =>
      .error ("Error, acceleration model " ++
        toString accelerationSettings.accelerationType ++
        " not recognized when making acceleration model of" ++
        nameOfBodyExertingAcceleration ++ " on " ++ nameOfBodyUndergoingAcceleration)

/-- Requested accelerations: undergoing-body name to exerting-body name to
ordered settings, in `std::map` iteration (ascending key) order. -/
abbrev SelectedAccelerationMap := List (String × List (String × List AccelerationSettings))

/-- Produced accelerations, mirroring `SelectedAccelerationMap`'s shape. -/
abbrev AccelerationMap := List (String × List (String × List AccelerationModel3d))

/-- The mutable world threaded through assembly: the body registry
(bodies mutate in place through shared pointers), the supply of fresh
flight-conditions identities, and a count of the acceleration model
objects completed by the factory so far (models constructed before a
later exception have still been constructed, which this count records). -/
structure AssemblyState where
  bodyMap : List (String × Body)
  freshFlightConditionsId : Nat
  modelsConstructed : Nat
  deriving DecidableEq

/-- Inner loop of `createAccelerationModelsMap`: build every settings
entry of one (undergoing, exerting) pair, re-reading both bodies from the
registry at each iteration as the source does. -/
def buildAccelerationList
    (nameOfBodyUndergoingAcceleration nameOfBodyExertingAcceleration : String)
    (centralBody : Option Body) (nameOfCentralBody : String) :
    List AccelerationSettings → AssemblyState →
    Except String (List AccelerationModel3d) × AssemblyState
  | [], st => (.ok [], st)
  | settings :: rest, st =>
      match lookupName st.bodyMap nameOfBodyUndergoingAcceleration,
            lookupName st.bodyMap nameOfBodyExertingAcceleration with
      | some bodyUndergoingAcceleration, some bodyExertingAcceleration =>
          match createAccelerationModel bodyUndergoingAcceleration
              bodyExertingAcceleration settings nameOfBodyUndergoingAcceleration
              nameOfBodyExertingAcceleration centralBody nameOfCentralBody
              st.freshFlightConditionsId with
          | .error e => (.error e, st)
          | .ok (model, updatedBody, nextFreshId) =>
              let st2 : AssemblyState :=
                { bodyMap := updateBody st.bodyMap nameOfBodyUndergoingAcceleration updatedBody,
                  freshFlightConditionsId := nextFreshId,
                  modelsConstructed := st.modelsConstructed + 1 }
              match buildAccelerationList nameOfBodyUndergoingAcceleration
                  nameOfBodyExertingAcceleration centralBody nameOfCentralBody rest st2 with
              | (.ok models, st3) => (.ok (model :: models), st3)
              | (.error e, st3) => (.error e, st3)
      | _, _ =>
          -- std::map::at on a missing key; unreachable: both names were
          -- checked before this loop and registry keys never change.
          (.error "body map out_of_range", st)

/-- Middle loop of `createAccelerationModelsMap`: iterate over all bodies
exerting an acceleration on the current undergoing body. -/
def buildForExertingBodies
    (nameOfBodyUndergoingAcceleration : String)
    (centralBody : Option Body) (nameOfCentralBody : String) :
    List (String × List AccelerationSettings) → AssemblyState →
    Except String (List (String × List AccelerationModel3d)) × AssemblyState
  | [], st => (.ok [], st)
  | (nameOfBodyExertingAcceleration, accelerationList) :: rest, st =>
      -- Check if body exerting acceleration is included in bodyMap.
      if (lookupName st.bodyMap nameOfBodyExertingAcceleration).isNone then
        (.error ("Error when making acceleration models, requested forces " ++
          "acting on body " ++ nameOfBodyUndergoingAcceleration ++ " due to body " ++
          nameOfBodyExertingAcceleration ++ ", but no such body found in map of bodies"), st)
      else
        match buildAccelerationList nameOfBodyUndergoingAcceleration
            nameOfBodyExertingAcceleration centralBody nameOfCentralBody
            accelerationList st with
        | (.ok models, st2) =>
            match buildForExertingBodies nameOfBodyUndergoingAcceleration
                centralBody nameOfCentralBody rest st2 with
            | (.ok restMap, st3) =>
                (.ok ((nameOfBodyExertingAcceleration, models) :: restMap), st3)
            | (.error e, st3) => (.error e, st3)
        | (.error e, st2) => (.error e, st2)

/-- Outer loop of `createAccelerationModelsMap`: iterate over all bodies
undergoing acceleration, resolving and validating the central body and
the undergoing body before that entry's models are built. -/
def buildForUndergoingBodies (centralBodies : List (String × String)) :
    SelectedAccelerationMap → AssemblyState →
    Except String AccelerationMap × AssemblyState
  | [], st => (.ok [], st)
  | (bodyUndergoingAcceleration, accelerationsForBody) :: rest, st =>
      -- Retrieve name of current central body (std::map::at throws when absent).
      match lookupName centralBodies bodyUndergoingAcceleration with
      | none => (.error "central body map out_of_range", st)
      | some currentCentralBodyName =>
          let centralBodyResolution : Except String (Option Body) :=
            if isFrameInertial currentCentralBodyName = true then .ok none
            else
              match lookupName st.bodyMap currentCentralBodyName with
              | none =>
                  .error ("Error, could not find non-inertial central body " ++
                    currentCentralBodyName ++ " of " ++ bodyUndergoingAcceleration ++
                    " when making acceleration model.")
              | some currentCentralBody => .ok (some currentCentralBody)
          match centralBodyResolution with
          | .error e => (.error e, st)
          | .ok currentCentralBody =>
              -- Check if body undergoing acceleration is included in bodyMap.
              if (lookupName st.bodyMap bodyUndergoingAcceleration).isNone then
                (.error ("Error when making acceleration models, requested forces" ++
                  "acting on body " ++ bodyUndergoingAcceleration ++
                  ", but no such body found in map of bodies"), st)
              else
                match buildForExertingBodies bodyUndergoingAcceleration
                    currentCentralBody currentCentralBodyName accelerationsForBody st with
                | (.ok mapOfAccelerationsForBody, st2) =>
                    match buildForUndergoingBodies centralBodies rest st2 with
                    | (.ok restMap, st3) =>
                        (.ok ((bodyUndergoingAcceleration, mapOfAccelerationsForBody)
                          :: restMap), st3)
                    | (.error e, st3) => (.error e, st3)
                | (.error e, st2) => (.error e, st2)

/-- Function to create a set of acceleration models from a map of bodies
and acceleration model types.  Returns the (exception-or-map) result
together with the final world state. -/
def createAccelerationModelsMap
    (bodyMap : List (String × Body))
    (selectedAccelerationPerBody : SelectedAccelerationMap)
    (centralBodies : List (String × String)) :
    Except String AccelerationMap × AssemblyState :=
  buildForUndergoingBodies centralBodies selectedAccelerationPerBody
    { bodyMap := bodyMap, freshFlightConditionsId := 0, modelsConstructed := 0 }

/-- Whether the declared central body of one undergoing body can be
resolved: it is either an inertial frame or present in the registry. -/
def centralBodyResolvable (bodyMap : List (String × Body))
    (centralBodies : List (String × String)) (nameOfBodyUndergoingAcceleration : String) :
    Bool :=
  match lookupName centralBodies nameOfBodyUndergoingAcceleration with
  | some nameOfCentralBody =>
      isFrameInertial nameOfCentralBody || (lookupName bodyMap nameOfCentralBody).isSome
  | none => false

/-- Every body name referenced by a `SelectedAccelerationMap` (undergoing,
exerting, and each non-inertial declared central body) is present in the
body registry. -/
def referencedBodiesPresent (bodyMap : List (String × Body))
    (centralBodies : List (String × String)) (selected : SelectedAccelerationMap) : Bool :=
  selected.all (fun entry =>
    (lookupName bodyMap entry.1).isSome &&
    centralBodyResolvable bodyMap centralBodies entry.1 &&
    entry.2.all (fun pair => (lookupName bodyMap pair.1).isSome))

/-! Sample environment used to instantiate the theorems below. -/

/-- A body with no capabilities, from which the sample bodies are derived. -/
def baseBody : Body :=
  { position := (0, 0, 0), bodyMass := 1, gravityFieldModel := none,
    atmosphereModel := false, shapeModel := false,
    aerodynamicCoefficientInterface := none, radiationPressureInterfaces := [],
    flightConditions := none, rotationalEphemeris := none }

/-- Spherical-harmonics data of the sample Earth field. -/
def earthShData : SphericalHarmonicsFieldData :=
  { referenceRadius := 6378, fixedReferenceFrame := "IAU_Earth" }

/-- Sample spherical-harmonics gravity field. -/
def earthField : GravityFieldModel :=
  { gravitationalParameter := 398600, sphericalHarmonic := some earthShData }

/-- Sample point-mass gravity field. -/
def moonField : GravityFieldModel :=
  { gravitationalParameter := 4902, sphericalHarmonic := none }

/-- Sample body with a spherical-harmonics field, an atmosphere, a shape
model, and a rotational ephemeris whose target frame differs from the
field's fixed frame. -/
def earthBody : Body :=
  { baseBody with
      position := (1, 2, 3), gravityFieldModel := some earthField,
      atmosphereModel := true, shapeModel := true,
      rotationalEphemeris := some ({ targetFrame := "J2000" } : RotationalEphemeris) }

/-- Sample body with a point-mass gravity field only. -/
def moonBody : Body :=
  { baseBody with position := (4, 5, 6), gravityFieldModel := some moonField }

/-- Sample aerodynamic coefficient interface. -/
def sampleCoefficients : AerodynamicCoefficientInterface :=
  { areCoefficientsInAerodynamicFrame := true,
    areCoefficientsInNegativeAxisDirection := true, referenceArea := 10 }

/-- Sample radiation-pressure interface keyed by the Sun. -/
def sunInterface : RadiationPressureInterface :=
  { currentRadiationPressure := 2, radiationPressureCoefficient := 3, area := 4 }

/-- Sample vehicle: aerodynamic coefficients and a Sun radiation-pressure
interface, but no gravity field and no flight conditions yet. -/
def satBody : Body :=
  { baseBody with
      position := (7, 8, 9), bodyMass := 100,
      aerodynamicCoefficientInterface := some sampleCoefficients,
      radiationPressureInterfaces := [("Sun", sunInterface)] }

/-- Claim C10: isFrameInertial classifies a frame name as inertial if and
only if it is exactly "SSB", the empty string "", or "Inertial"; every
other frame name is classified non-inertial. -/
theorem isFrameInertial_spec (frame : String) :
    isFrameInertial frame = true ↔ (frame = "SSB" ∨ frame = "" ∨ frame = "Inertial") := by
  unfold isFrameInertial
  split <;> simp_all

/-- Claim C4: for every gravity build of the central and
spherical-harmonic families, if the central-body-fixed-frame flag is
false or the undergoing body has no gravity field model, the built
model's gravitational-parameter function evaluates to the exerting body's
gravitational parameter alone; if the flag is true and the undergoing body
has a gravity field, it evaluates to the sum of the exerting and
undergoing bodies' gravitational parameters. -/
theorem gravitationalParameter_resolver_spec :
    (∀ (bodyU bodyE : Body) (nameU nameE : String) (flag : Bool)
        (m : CentralGravitationalAccelerationModel3d) (fieldE : GravityFieldModel),
        createCentralGravityAcceleratioModel bodyU bodyE nameU nameE flag = .ok m →
        bodyE.gravityFieldModel = some fieldE →
        ((flag = false ∨ bodyU.gravityFieldModel = none →
            m.gravitationalParameterFunction.eval = fieldE.gravitationalParameter)
          ∧ (∀ fieldU, flag = true → bodyU.gravityFieldModel = some fieldU →
              m.gravitationalParameterFunction.eval
                = fieldE.gravitationalParameter + fieldU.gravitationalParameter)))
    ∧ (∀ (bodyU bodyE : Body) (nameU nameE : String) (deg ord : Nat) (flag : Bool)
        (m : SphericalHarmonicsGravitationalAccelerationModelXd) (fieldE : GravityFieldModel),
        createSphericalHarmonicsGravityAcceleration bodyU bodyE nameU nameE
          (.sphericalHarmonicGravity deg ord) flag = .ok m →
        bodyE.gravityFieldModel = some fieldE →
        ((flag = false ∨ bodyU.gravityFieldModel = none →
            m.gravitationalParameterFunction.eval = fieldE.gravitationalParameter)
          ∧ (∀ fieldU, flag = true → bodyU.gravityFieldModel = some fieldU →
              m.gravitationalParameterFunction.eval
                = fieldE.gravitationalParameter + fieldU.gravitationalParameter))) := by
  constructor
  · intro bodyU bodyE nameU nameE flag m fieldE hok hE
    cases flag <;> cases hU : bodyU.gravityFieldModel <;>
        simp only [createCentralGravityAcceleratioModel, hE, hU,
          Except.ok.injEq] at hok <;>
      subst hok <;> simp_all [DoubleFunction.eval]
  · intro bodyU bodyE nameU nameE deg ord flag m fieldE hok hE
    cases hS : fieldE.sphericalHarmonic with
    | none =>
        simp [createSphericalHarmonicsGravityAcceleration, hE, hS] at hok
    | some data =>
        cases flag <;> cases hU : bodyU.gravityFieldModel <;>
            simp only [createSphericalHarmonicsGravityAcceleration, hE, hS,
              Except.ok.injEq] at hok <;>
          subst hok <;> simp_all [DoubleFunction.eval]

/-- The central-gravity model the sample summed-parameter build yields. -/
def sampleSummedCentralModel : CentralGravitationalAccelerationModel3d :=
  { positionOfBodySubjectToAcceleration := moonBody,
    gravitationalParameterFunction :=
      .evaluateDoubleFunctions (.getGravitationalParameter earthField)
        (.getGravitationalParameter moonField),
    positionOfBodyExertingAcceleration := earthBody }

/-- The spherical-harmonics model the sample single-parameter build yields. -/
def sampleShModel : SphericalHarmonicsGravitationalAccelerationModelXd :=
  { positionOfBodySubjectToAcceleration := moonBody,
    gravitationalParameterFunction := .getGravitationalParameter earthField,
    referenceRadius := 6378,
    cosineCoefficientFunction := (earthField, 4, 4),
    sineCoefficientFunction := (earthField, 4, 4),
    positionOfBodyExertingAcceleration := earthBody }

/-- Witness for C4: concrete summed-parameter central build and concrete
single-parameter spherical-harmonic build. -/
theorem gravitationalParameter_resolver_spec_witness :
    sampleSummedCentralModel.gravitationalParameterFunction.eval
        = earthField.gravitationalParameter + moonField.gravitationalParameter
      ∧ sampleShModel.gravitationalParameterFunction.eval
        = earthField.gravitationalParameter :=
  ⟨(gravitationalParameter_resolver_spec.1 moonBody earthBody "Moon" "Earth" true
      sampleSummedCentralModel earthField rfl rfl).2 moonField rfl rfl,
   (gravitationalParameter_resolver_spec.2 moonBody earthBody "Moon" "Earth" 4 4 false
      sampleShModel earthField rfl rfl).1 (Or.inl rfl)⟩

/-- Claim C1: a central-gravity settings entry yields a direct central
gravity model exactly when the declared central body equals the exerting
body or is an inertial frame, with the summed-parameter flag true exactly
when the central body equals the exerting body; otherwise it yields a
third-body composite whose legs are the direct builds on the undergoing
body and on the central body, both with centralBodyFixedFrame = false for
the same exerting body, and whose evaluation is the first leg's
acceleration minus the second leg's. -/
theorem createAccelerationModel_centralGravity_dispatch
    (bodyU bodyE cb : Body) (nameU nameE nameC : String) (freshId : Nat) :
    ((nameC = nameE ∨ isFrameInertial nameC = true) →
      createAccelerationModel bodyU bodyE .centralGravity nameU nameE (some cb) nameC freshId
        = (createCentralGravityAcceleratioModel bodyU bodyE nameU nameE
            (if nameC = nameE then true else false)).map
            (fun m => (AccelerationModel3d.centralGravity m, bodyU, freshId)))
    ∧ (¬(nameC = nameE ∨ isFrameInertial nameC = true) →
        ∀ leg1 leg2,
          createCentralGravityAcceleratioModel bodyU bodyE nameU nameE false = .ok leg1 →
          createCentralGravityAcceleratioModel cb bodyE nameC nameE false = .ok leg2 →
          createAccelerationModel bodyU bodyE .centralGravity nameU nameE (some cb) nameC freshId
            = .ok (AccelerationModel3d.thirdBodyCentralGravity
                { accelerationModelForBodyUndergoingAcceleration := leg1,
                  accelerationModelForCentralBody := leg2 }, bodyU, freshId)
          ∧ ∀ kernel : Int → Vec3 → Vec3 → Vec3,
              evaluateThirdBodyCentralGravity kernel
                  { accelerationModelForBodyUndergoingAcceleration := leg1,
                    accelerationModelForCentralBody := leg2 }
                = vsub (evaluateCentralGravity kernel leg1)
                    (evaluateCentralGravity kernel leg2)) := by
  constructor
  · intro h
    simp only [createAccelerationModel, if_pos h]
  · intro h leg1 leg2 h1 h2
    refine ⟨?_, fun kernel => rfl⟩
    simp only [createAccelerationModel, if_neg h,
      createThirdBodyCentralGravityAccelerationModel, h1, h2]
    rfl

/-- First leg of the sample third-body build: direct central gravity of
the Moon on the vehicle, parameter flag false. -/
def sampleLegForSat : CentralGravitationalAccelerationModel3d :=
  { positionOfBodySubjectToAcceleration := satBody,
    gravitationalParameterFunction := .getGravitationalParameter moonField,
    positionOfBodyExertingAcceleration := moonBody }

/-- Second leg of the sample third-body build: direct central gravity of
the Moon on the central body Earth, parameter flag false. -/
def sampleLegForEarth : CentralGravitationalAccelerationModel3d :=
  { positionOfBodySubjectToAcceleration := earthBody,
    gravitationalParameterFunction := .getGravitationalParameter moonField,
    positionOfBodyExertingAcceleration := moonBody }

/-- Witness for C1: concrete third-body build, central body Earth, Moon
exerting, vehicle undergoing. -/
theorem createAccelerationModel_centralGravity_dispatch_witness :
    createAccelerationModel satBody moonBody .centralGravity "Sat" "Moon"
        (some earthBody) "Earth" 0
      = .ok (AccelerationModel3d.thirdBodyCentralGravity
          { accelerationModelForBodyUndergoingAcceleration := sampleLegForSat,
            accelerationModelForCentralBody := sampleLegForEarth }, satBody, 0) :=
  ((createAccelerationModel_centralGravity_dispatch satBody moonBody earthBody
      "Sat" "Moon" "Earth" 0).2 (by decide) sampleLegForSat sampleLegForEarth rfl rfl).1

/-- Claim C8: building an aerodynamic acceleration model mutates the
undergoing body only by attaching a flight-conditions object and only
when none is attached yet; existing flight conditions are reused
unchanged, and a repeated build for the same undergoing body attaches no
further instance and binds the same instance into both models. -/
theorem aerodynamic_flightConditions_idempotent
    (bodyU bodyE : Body) (nameU nameE : String) (freshId : Nat)
    (m : AerodynamicAcceleration) (bodyU2 : Body) (freshId2 : Nat)
    (hok : createAerodynamicAcceleratioModel bodyU bodyE nameU nameE freshId
      = .ok (m, bodyU2, freshId2)) :
    ((∀ fc, bodyU.flightConditions = some fc →
        bodyU2 = bodyU ∧ freshId2 = freshId ∧ m.flightConditions = fc)
      ∧ (bodyU.flightConditions = none →
          bodyU2 = { bodyU with flightConditions := some freshId }
            ∧ freshId2 = freshId + 1 ∧ m.flightConditions = freshId)
      ∧ (∀ m2 bodyU3 freshId3,
          createAerodynamicAcceleratioModel bodyU2 bodyE nameU nameE freshId2
            = .ok (m2, bodyU3, freshId3) →
          bodyU3 = bodyU2 ∧ freshId3 = freshId2 ∧ m2.flightConditions = m.flightConditions)) := by
  cases hA : bodyU.aerodynamicCoefficientInterface with
  | none => simp [createAerodynamicAcceleratioModel, hA] at hok
  | some coeffs =>
  cases hAt : bodyE.atmosphereModel with
  | false => simp [createAerodynamicAcceleratioModel, hA, hAt] at hok
  | true =>
  cases hSh : bodyE.shapeModel with
  | false => simp [createAerodynamicAcceleratioModel, hA, hAt, hSh] at hok
  | true =>
  cases hF : bodyU.flightConditions with
  | some fc =>
    simp [createAerodynamicAcceleratioModel, hA, hAt, hSh, hF] at hok
    obtain ⟨hm, hb, hf⟩ := hok
    refine ⟨?_, ?_, ?_⟩
    · intro fc2 hfc2
      injection hfc2 with hfc2
      subst hfc2
      exact ⟨hb.symm, hf.symm, by rw [← hm]⟩
    · intro hnone
      cases hnone
    · intro m2 bodyU3 freshId3 h2
      rw [← hb] at h2
      simp [createAerodynamicAcceleratioModel, hA, hAt, hSh, hF] at h2
      obtain ⟨hm2, hb2, hf2⟩ := h2
      refine ⟨hb2.symm.trans hb, hf2.symm, ?_⟩
      rw [← hm2, ← hm]
  | none =>
    simp [createAerodynamicAcceleratioModel, hA, hAt, hSh, hF] at hok
    obtain ⟨hm, hb, hf⟩ := hok
    refine ⟨?_, ?_, ?_⟩
    · intro fc2 hfc2
      cases hfc2
    · intro _
      exact ⟨hb.symm, hf.symm, by rw [← hm]⟩
    intro m2 bodyU3 freshId3 h2
    rw [← hb, ← hf] at h2
    simp [createAerodynamicAcceleratioModel, hA, hAt, hSh] at h2
    obtain ⟨hm2, hb2, hf2⟩ := h2
    refine ⟨hb2.symm.trans hb, hf2.symm.trans hf, ?_⟩
    rw [← hm2, ← hm]

/-- Sample radiating body (no further capabilities needed: the cannonball
builder reads the interface off the undergoing body). -/
def sunBody : Body :=
  { baseBody with position := (10, 11, 12) }

/-- Counterexample to C2: registry and request with one pair whose
settings sequence is [thrust, aerodynamic]. -/
def pairBodyMapC2 : List (String × Body) := [("Earth", earthBody), ("Sat", satBody)]

/-- Counterexample to C2: the selected accelerations, thrust listed before
aerodynamic. -/
def selectedC2 : SelectedAccelerationMap :=
  [("Sat", [("Earth", [AccelerationSettings.thrust, AccelerationSettings.aerodynamic])])]

/-- Counterexample to C2: central-body declarations. -/
def centralBodiesC2 : List (String × String) := [("Sat", "Earth")]

/-- Counterexample for C2: on the pair settings sequence
[thrust, aerodynamic] the assembler does not reorder and build
[aerodynamic, thrust]; it aborts with an unrecognized-acceleration error
on the leading thrust entry, constructing no model at all. -/
theorem thrustAerodynamicOrder_counterexample :
    createAccelerationModelsMap pairBodyMapC2 selectedC2 centralBodiesC2
      = (.error ("Error, acceleration model 5 not recognized when making acceleration model of"
          ++ "Earth" ++ " on " ++ "Sat"),
         { bodyMap := pairBodyMapC2, freshFlightConditionsId := 0, modelsConstructed := 0 }) := by
  rfl

/-- Amended C2: the assembler performs no aerodynamic/thrust reordering;
each pair's settings are built in the order supplied, and a thrust entry
is not handled by the dispatch at all, so it aborts assembly with an
unrecognized-acceleration-type configuration error (a [thrust,
aerodynamic] sequence therefore fails on its first entry instead of being
built as [aerodynamic, thrust], and no multiple-aerodynamic check
exists). -/
theorem thrustEntry_abortsBuild :
    (∀ (bodyU bodyE : Body) (nameU nameE : String) (cbO : Option Body)
        (nameC : String) (freshId : Nat),
        createAccelerationModel bodyU bodyE .thrust nameU nameE cbO nameC freshId
          = .error ("Error, acceleration model 5 not recognized when making acceleration model of"
              ++ nameE ++ " on " ++ nameU))
    ∧ (∀ (nameU nameE : String) (cbO : Option Body) (nameC : String)
        (rest : List AccelerationSettings) (st : AssemblyState) (bodyU bodyE : Body),
        lookupName st.bodyMap nameU = some bodyU →
        lookupName st.bodyMap nameE = some bodyE →
        buildAccelerationList nameU nameE cbO nameC (.thrust :: rest) st
          = (.error ("Error, acceleration model 5 not recognized when making acceleration model of"
              ++ nameE ++ " on " ++ nameU), st)) := by
  constructor
  · intro bodyU bodyE nameU nameE cbO nameC freshId
    rfl
  · intro nameU nameE cbO nameC rest st bodyU bodyE h1 h2
    simp only [buildAccelerationList, h1, h2]
    rfl

/-- Witness for the amended C2: the concrete [thrust, aerodynamic] run. -/
theorem thrustEntry_abortsBuild_witness :
    buildAccelerationList "Sat" "Earth" (some earthBody) "Earth"
        [AccelerationSettings.thrust, AccelerationSettings.aerodynamic]
        { bodyMap := pairBodyMapC2, freshFlightConditionsId := 0, modelsConstructed := 0 }
      = (.error ("Error, acceleration model 5 not recognized when making acceleration model of"
          ++ "Earth" ++ " on " ++ "Sat"),
         { bodyMap := pairBodyMapC2, freshFlightConditionsId := 0, modelsConstructed := 0 }) :=
  thrustEntry_abortsBuild.2 "Sat" "Earth" (some earthBody) "Earth"
    [AccelerationSettings.aerodynamic]
    { bodyMap := pairBodyMapC2, freshFlightConditionsId := 0, modelsConstructed := 0 }
    satBody earthBody rfl rfl

/-- Claim C3 (code bug, missing `break`): with a radiation-pressure
interface for the exerting body present, the cannonball case builds the
model and then falls through into the default branch, so the call throws
the unrecognized-type error instead of returning the model; without the
interface it throws the missing-interface error naming both bodies. -/
theorem cannonball_fallthrough_divergence :
    createAccelerationModel satBody sunBody .cannonBallRadiationPressure "Sat" "Sun"
        none "SSB" 0
      = .error ("Error, acceleration model 4 not recognized when making acceleration model of"
          ++ "Sun" ++ " on " ++ "Sat")
    ∧ createAccelerationModel satBody sunBody .cannonBallRadiationPressure "Sat" "Venus"
        none "SSB" 0
      = .error ("Error when making radiation pressure, no radiation pressure interface found  in "
          ++ "Sat" ++ " for body " ++ "Venus") := ⟨rfl, rfl⟩

/-- Counterexample for C5: a spherical-harmonic-gravity entry whose
declared central body ("Moon") is neither the exerting body ("Earth") nor
inertial does not yield a third-body composite; it throws. -/
theorem thirdBodySphericalHarmonic_counterexample :
    createAccelerationModel satBody earthBody (.sphericalHarmonicGravity 4 4) "Sat" "Earth"
        (some moonBody) "Moon" 0
      = .error "Error, cannot yet make third body spherical harmonic acceleration." := rfl

/-- Amended C5: for every spherical-harmonic-gravity settings entry whose
undergoing body's declared central body is neither the exerting body nor
an inertial frame, createAccelerationModel fails with the error that
third-body spherical harmonic accelerations cannot yet be made, instead
of producing a composite model. -/
theorem thirdBodySphericalHarmonic_error
    (bodyU bodyE : Body) (nameU nameE : String) (deg ord : Nat)
    (cbO : Option Body) (nameC : String) (freshId : Nat)
    (h : ¬(nameC = nameE ∨ isFrameInertial nameC = true)) :
    createAccelerationModel bodyU bodyE (.sphericalHarmonicGravity deg ord)
        nameU nameE cbO nameC freshId
      = .error "Error, cannot yet make third body spherical harmonic acceleration." := by
  simp only [createAccelerationModel, if_neg h]

/-- Witness for the amended C5: the concrete failing build. -/
theorem thirdBodySphericalHarmonic_error_witness :
    createAccelerationModel satBody earthBody (.sphericalHarmonicGravity 2 0) "Sat" "Earth"
        (some moonBody) "Moon" 7
      = .error "Error, cannot yet make third body spherical harmonic acceleration." :=
  thirdBodySphericalHarmonic_error satBody earthBody "Sat" "Earth" 2 0
    (some moonBody) "Moon" 7 (by decide)

/-- Counterexample for C7: the exerting body's rotational-ephemeris target
frame ("J2000") differs from its gravity field's fixed frame
("IAU_Earth"), yet the direct spherical-harmonic build succeeds: no
frame-mismatch failure occurs. -/
theorem sphericalHarmonic_frameCheck_counterexample :
    earthBody.rotationalEphemeris = some ({ targetFrame := "J2000" } : RotationalEphemeris)
    ∧ earthField.sphericalHarmonic = some earthShData
    ∧ earthShData.fixedReferenceFrame = "IAU_Earth"
    ∧ createSphericalHarmonicsGravityAcceleration satBody earthBody "Sat" "Earth"
        (.sphericalHarmonicGravity 4 4) false
      = .ok { positionOfBodySubjectToAcceleration := satBody,
              gravitationalParameterFunction := .getGravitationalParameter earthField,
              referenceRadius := 6378,
              cosineCoefficientFunction := (earthField, 4, 4),
              sineCoefficientFunction := (earthField, 4, 4),
              positionOfBodyExertingAcceleration := earthBody } :=
  ⟨rfl, rfl, rfl, rfl⟩

/-- Amended C7: the direct spherical-harmonic builder performs no
rotational-ephemeris frame-consistency check at all: whenever the
settings carry the spherical-harmonic tag and the exerting body owns a
spherical-harmonics gravity field, construction succeeds regardless of
any rotational ephemeris and of its target frame, so no frame-mismatch
failure can arise. -/
theorem sphericalHarmonic_noFrameCheck
    (bodyU bodyE : Body) (nameU nameE : String) (deg ord : Nat) (flag : Bool)
    (field : GravityFieldModel) (data : SphericalHarmonicsFieldData)
    (hf : bodyE.gravityFieldModel = some field)
    (hd : field.sphericalHarmonic = some data) :
    ∃ m, createSphericalHarmonicsGravityAcceleration bodyU bodyE nameU nameE
        (.sphericalHarmonicGravity deg ord) flag = .ok m := by
  cases flag <;> cases hU : bodyU.gravityFieldModel <;>
    simp [createSphericalHarmonicsGravityAcceleration, hf, hd, hU]

/-- Witness for the amended C7: the concrete mismatched-frame build. -/
theorem sphericalHarmonic_noFrameCheck_witness :
    ∃ m, createSphericalHarmonicsGravityAcceleration satBody earthBody "Sat" "Earth"
        (.sphericalHarmonicGravity 4 4) false = .ok m :=
  sphericalHarmonic_noFrameCheck satBody earthBody "Sat" "Earth" 4 4 false
    earthField earthShData rfl rfl

/-! Registry invariants used by the assembler theorems: building models
can attach flight conditions to bodies but never changes which names are
bound or which gravity fields they own. -/

/-- The gravity-field view of one registry entry. -/
def gfmView (bodyMap : List (String × Body)) (name : String) :
    Option (Option GravityFieldModel) :=
  (lookupName bodyMap name).map Body.gravityFieldModel

/-- Lookup after a write-back: the bound value changes only at the
written name. -/
lemma lookupName_updateBody (bm : List (String × Body)) (n : String) (b2 : Body)
    (x : String) :
    lookupName (updateBody bm n b2) x
      = (lookupName bm x).map (fun b => if x = n then b2 else b) := by
  induction bm with
  | nil => rfl
  | cons hd tl ih =>
    obtain ⟨k, v⟩ := hd
    by_cases hkn : k = n
    · subst hkn
      by_cases hkx : k = x
      · subst hkx
        simp [updateBody, lookupName]
      · simp [updateBody, lookupName, hkx, ih]
    · by_cases hkx : k = x
      · subst hkx
        simp [updateBody, lookupName, hkn, Ne.symm hkn]
      · simp [updateBody, lookupName, hkn, hkx, ih]

/-- Writing back a body with the same gravity field leaves the
gravity-field view of every name unchanged. -/
lemma gfmView_updateBody (bm : List (String × Body)) (n : String) (b b2 : Body)
    (hb : lookupName bm n = some b)
    (hgfm : b2.gravityFieldModel = b.gravityFieldModel) (x : String) :
    gfmView (updateBody bm n b2) x = gfmView bm x := by
  unfold gfmView
  rw [lookupName_updateBody]
  by_cases hx : x = n
  · subst hx
    rw [hb]
    simp [hgfm]
  · cases lookupName bm x <;> simp [hx]

/-- The aerodynamic builder only attaches flight conditions: the returned
undergoing body keeps its gravity field. -/
lemma createAerodynamicAcceleratioModel_gravityField
    (bodyU bodyE : Body) (nameU nameE : String) (freshId : Nat)
    (m : AerodynamicAcceleration) (bodyU2 : Body) (freshId2 : Nat)
    (h : createAerodynamicAcceleratioModel bodyU bodyE nameU nameE freshId
      = .ok (m, bodyU2, freshId2)) :
    bodyU2.gravityFieldModel = bodyU.gravityFieldModel := by
  cases hA : bodyU.aerodynamicCoefficientInterface with
  | none => simp [createAerodynamicAcceleratioModel, hA] at h
  | some coeffs =>
  cases hAt : bodyE.atmosphereModel with
  | false => simp [createAerodynamicAcceleratioModel, hA, hAt] at h
  | true =>
  cases hSh : bodyE.shapeModel with
  | false => simp [createAerodynamicAcceleratioModel, hA, hAt, hSh] at h
  | true =>
  cases hF : bodyU.flightConditions with
  | some fc =>
    simp [createAerodynamicAcceleratioModel, hA, hAt, hSh, hF] at h
    rw [← h.2.1]
  | none =>
    simp [createAerodynamicAcceleratioModel, hA, hAt, hSh, hF] at h
    rw [← h.2.1]

/-- Every successful dispatch returns an undergoing body with the same
gravity field as the input body. -/
lemma createAccelerationModel_gravityField
    (bodyU bodyE : Body) (s : AccelerationSettings) (nameU nameE : String)
    (cbO : Option Body) (nameC : String) (freshId : Nat)
    (m : AccelerationModel3d) (bodyU2 : Body) (freshId2 : Nat)
    (h : createAccelerationModel bodyU bodyE s nameU nameE cbO nameC freshId
      = .ok (m, bodyU2, freshId2)) :
    bodyU2.gravityFieldModel = bodyU.gravityFieldModel := by
  cases s with
  | centralGravity =>
    simp only [createAccelerationModel] at h
    split at h
    · cases hcc : createCentralGravityAcceleratioModel bodyU bodyE nameU nameE
          (if nameC = nameE then true else false) with
      | error e => rw [hcc] at h; simp [Except.map] at h
      | ok mm => rw [hcc] at h; simp [Except.map] at h; rw [← h.2.1]
    · split at h
      · rename_i cb
        cases hcc : createThirdBodyCentralGravityAccelerationModel bodyU bodyE cb
            nameU nameE nameC with
        | error e => rw [hcc] at h; simp [Except.map] at h
        | ok mm => rw [hcc] at h; simp [Except.map] at h; rw [← h.2.1]
      · simp at h
  | sphericalHarmonicGravity deg ord =>
    simp only [createAccelerationModel] at h
    split at h
    · cases hcc : createSphericalHarmonicsGravityAcceleration bodyU bodyE nameU nameE
          (.sphericalHarmonicGravity deg ord) (if nameC = nameE then true else false) with
      | error e => rw [hcc] at h; simp [Except.map] at h
      | ok mm => rw [hcc] at h; simp [Except.map] at h; rw [← h.2.1]
    · simp at h
  | aerodynamic =>
    simp only [createAccelerationModel] at h
    cases hcc : createAerodynamicAcceleratioModel bodyU bodyE nameU nameE freshId with
    | error e => rw [hcc] at h; simp [Except.map] at h
    | ok r =>
      obtain ⟨ma, b2, n2⟩ := r
      rw [hcc] at h
      simp [Except.map] at h
      rw [← h.2.1]
      exact createAerodynamicAcceleratioModel_gravityField bodyU bodyE nameU nameE
        freshId ma b2 n2 hcc
  | cannonBallRadiationPressure =>
    simp only [createAccelerationModel] at h
    cases hcc : createCannonballRadiationPressureAcceleratioModel bodyU bodyE nameU nameE with
    | error e => rw [hcc] at h; simp [Except.bind] at h
    | ok mm => rw [hcc] at h; simp [Except.bind] at h
  | mutualSphericalHarmonicGravity => simp [createAccelerationModel] at h
  | thrust => simp [createAccelerationModel] at h

/-- The inner build loop leaves the gravity-field view of every name
unchanged, whether it succeeds or throws. -/
lemma buildAccelerationList_gfmView
    (nameU nameE : String) (cbO : Option Body) (nameC : String) :
    ∀ (ss : List AccelerationSettings) (st : AssemblyState) (x : String),
      gfmView (buildAccelerationList nameU nameE cbO nameC ss st).2.bodyMap x
        = gfmView st.bodyMap x := by
  intro ss
  induction ss with
  | nil => intro st x; rfl
  | cons s rest ih =>
    intro st x
    simp only [buildAccelerationList]
    split
    · rename_i bodyU bodyE h1 h2
      split
      · rfl
      · rename_i r model updatedBody nextFreshId hc
        have hstep : gfmView (updateBody st.bodyMap nameU updatedBody) x
            = gfmView st.bodyMap x :=
          gfmView_updateBody st.bodyMap nameU bodyU updatedBody h1
            (createAccelerationModel_gravityField bodyU bodyE s nameU nameE cbO nameC
              st.freshFlightConditionsId model updatedBody nextFreshId hc) x
        split
        · rename_i models st3 hrec
          have hih := ih
            { bodyMap := updateBody st.bodyMap nameU updatedBody,
              freshFlightConditionsId := nextFreshId,
              modelsConstructed := st.modelsConstructed + 1 } x
          rw [hrec] at hih
          exact hih.trans hstep
        · rename_i e st3 hrec
          have hih := ih
            { bodyMap := updateBody st.bodyMap nameU updatedBody,
              freshFlightConditionsId := nextFreshId,
              modelsConstructed := st.modelsConstructed + 1 } x
          rw [hrec] at hih
          exact hih.trans hstep
    · rfl

/-- The middle loop leaves the gravity-field view of every name
unchanged. -/
lemma buildForExertingBodies_gfmView
    (nameU : String) (cbO : Option Body) (nameC : String) :
    ∀ (accs : List (String × List AccelerationSettings)) (st : AssemblyState) (x : String),
      gfmView (buildForExertingBodies nameU cbO nameC accs st).2.bodyMap x
        = gfmView st.bodyMap x := by
  intro accs
  induction accs with
  | nil => intro st x; rfl
  | cons q rest ih =>
    intro st x
    obtain ⟨nameE, ss⟩ := q
    simp only [buildForExertingBodies]
    split
    · rfl
    · split
      · rename_i models st2 hb
        have hinner := buildAccelerationList_gfmView nameU nameE cbO nameC ss st x
        rw [hb] at hinner
        have hih := ih st2 x
        split
        · rename_i restMap st3 hrec
          rw [hrec] at hih
          exact hih.trans hinner
        · rename_i e st3 hrec
          rw [hrec] at hih
          exact hih.trans hinner
      · rename_i e st2 hb
        have hinner := buildAccelerationList_gfmView nameU nameE cbO nameC ss st x
        rw [hb] at hinner
        exact hinner

/-- The outer loop leaves the gravity-field view of every name
unchanged. -/
lemma buildForUndergoingBodies_gfmView (cbs : List (String × String)) :
    ∀ (sel : SelectedAccelerationMap) (st : AssemblyState) (x : String),
      gfmView (buildForUndergoingBodies cbs sel st).2.bodyMap x
        = gfmView st.bodyMap x := by
  intro sel
  induction sel with
  | nil => intro st x; rfl
  | cons p rest ih =>
    intro st x
    obtain ⟨nameU, accs⟩ := p
    simp only [buildForUndergoingBodies]
    split
    · rfl
    · rename_i nameC hcb
      split
      · rfl
      · rename_i currentCentralBody hres
        split
        · rfl
        · split
          · rename_i mfb st2 hex
            have hmid := buildForExertingBodies_gfmView nameU currentCentralBody nameC
              accs st x
            rw [hex] at hmid
            have hih := ih st2 x
            split
            · rename_i restMap st3 hrec
              rw [hrec] at hih
              exact hih.trans hmid
            · rename_i e st3 hrec
              rw [hrec] at hih
              exact hih.trans hmid
          · rename_i e st2 hex
            have hmid := buildForExertingBodies_gfmView nameU currentCentralBody nameC
              accs st x
            rw [hex] at hmid
            exact hmid

/-- Presence version of the inner-loop invariance. -/
lemma buildAccelerationList_isSome
    (nameU nameE : String) (cbO : Option Body) (nameC : String)
    (ss : List AccelerationSettings) (st : AssemblyState) (x : String) :
    (lookupName (buildAccelerationList nameU nameE cbO nameC ss st).2.bodyMap x).isSome
      = (lookupName st.bodyMap x).isSome := by
  have h := buildAccelerationList_gfmView nameU nameE cbO nameC ss st x
  unfold gfmView at h
  have h2 := congrArg Option.isSome h
  simpa [Option.isSome_map] using h2

/-- Presence version of the middle-loop invariance. -/
lemma buildForExertingBodies_isSome
    (nameU : String) (cbO : Option Body) (nameC : String)
    (accs : List (String × List AccelerationSettings)) (st : AssemblyState) (x : String) :
    (lookupName (buildForExertingBodies nameU cbO nameC accs st).2.bodyMap x).isSome
      = (lookupName st.bodyMap x).isSome := by
  have h := buildForExertingBodies_gfmView nameU cbO nameC accs st x
  unfold gfmView at h
  have h2 := congrArg Option.isSome h
  simpa [Option.isSome_map] using h2

/-- Central-body resolvability only depends on which names are bound. -/
lemma centralBodyResolvable_congr (bm1 bm2 : List (String × Body))
    (cbs : List (String × String)) (n : String)
    (h : ∀ x, (lookupName bm2 x).isSome = (lookupName bm1 x).isSome) :
    centralBodyResolvable bm2 cbs n = centralBodyResolvable bm1 cbs n := by
  unfold centralBodyResolvable
  cases lookupName cbs n with
  | none => rfl
  | some nameC =>
    show (isFrameInertial nameC || (lookupName bm2 nameC).isSome)
      = (isFrameInertial nameC || (lookupName bm1 nameC).isSome)
    rw [h nameC]

/-- A successful middle loop implies every exerting name it visited was
present when it started. -/
lemma buildForExertingBodies_ok_names
    (nameU : String) (cbO : Option Body) (nameC : String) :
    ∀ (accs : List (String × List AccelerationSettings)) (st : AssemblyState)
      (r : List (String × List AccelerationModel3d)) (st2 : AssemblyState),
      buildForExertingBodies nameU cbO nameC accs st = (.ok r, st2) →
      ∀ q ∈ accs, (lookupName st.bodyMap q.1).isSome = true := by
  intro accs
  induction accs with
  | nil =>
    intro st r st2 h q hq
    cases hq
  | cons p rest ih =>
    intro st r st2 h q hq
    obtain ⟨nameE, ss⟩ := p
    simp only [buildForExertingBodies] at h
    split at h
    · simp at h
    · rename_i hE
      split at h
      · rename_i models st3 hb
        split at h
        · rename_i restMap st4 hrec
          rcases List.mem_cons.mp hq with hq1 | hq2
          · subst hq1
            cases ho : lookupName st.bodyMap nameE with
            | none => rw [ho] at hE; simp at hE
            | some b => simp [ho]
          · have hmem := ih st3 restMap st4 hrec q hq2
            have hiso := buildAccelerationList_isSome nameU nameE cbO nameC ss st q.1
            rw [hb] at hiso
            rw [← hiso]
            exact hmem
        · simp at h
      · simp at h

/-- A successful outer loop implies that, at its starting state, every
undergoing name was present, every declared central body resolvable, and
every exerting name present. -/
lemma buildForUndergoingBodies_ok_names (cbs : List (String × String)) :
    ∀ (sel : SelectedAccelerationMap) (st : AssemblyState) (r : AccelerationMap)
      (st2 : AssemblyState),
      buildForUndergoingBodies cbs sel st = (.ok r, st2) →
      ∀ p ∈ sel,
        (lookupName st.bodyMap p.1).isSome = true
        ∧ centralBodyResolvable st.bodyMap cbs p.1 = true
        ∧ ∀ q ∈ p.2, (lookupName st.bodyMap q.1).isSome = true := by
  intro sel
  induction sel with
  | nil =>
    intro st r st2 h p hp
    cases hp
  | cons pr rest ih =>
    intro st r st2 h p hp
    obtain ⟨nameU, accs⟩ := pr
    simp only [buildForUndergoingBodies] at h
    split at h
    · simp at h
    · rename_i nameC hcb
      split at h
      · simp at h
      · rename_i currentCentralBody hres
        split at h
        · simp at h
        · rename_i hU
          split at h
          · rename_i mfb st3 hex
            split at h
            · rename_i restMap st4 hrec
              have hiso : ∀ x, (lookupName st3.bodyMap x).isSome
                  = (lookupName st.bodyMap x).isSome := by
                intro x
                have hx := buildForExertingBodies_isSome nameU currentCentralBody nameC
                  accs st x
                rw [hex] at hx
                exact hx
              rcases List.mem_cons.mp hp with hp1 | hp2
              · subst hp1
                refine ⟨?_, ?_, ?_⟩
                · cases ho : lookupName st.bodyMap nameU with
                  | none => rw [ho] at hU; simp at hU
                  | some b => simp [ho]
                · unfold centralBodyResolvable
                  rw [hcb]
                  show (isFrameInertial nameC || (lookupName st.bodyMap nameC).isSome) = true
                  cases hI : isFrameInertial nameC with
                  | true => rfl
                  | false =>
                    rw [hI] at hres
                    simp only [Bool.false_eq_true, if_false] at hres
                    cases hC : lookupName st.bodyMap nameC with
                    | none => rw [hC] at hres; simp at hres
                    | some cb => simp [hC]
                · exact buildForExertingBodies_ok_names nameU currentCentralBody nameC
                    accs st mfb st3 hex
              · have hrest := ih st3 restMap st4 hrec p hp2
                refine ⟨?_, ?_, ?_⟩
                · rw [← hiso p.1]; exact hrest.1
                · rw [← centralBodyResolvable_congr st.bodyMap st3.bodyMap cbs p.1 hiso]
                  exact hrest.2.1
                · intro q hq
                  rw [← hiso q.1]
                  exact hrest.2.2 q hq
            · simp at h
          · simp at h

/-- Claim C6 (amended): a successful assembly implies that every
referenced body name was present in the registry; equivalently, a
missing name forces the whole call to fail (the failure is raised when
iteration reaches the offending entry, which is what the counterexample
exploits). -/
theorem assemblySuccess_impliesBodiesPresent
    (bm : List (String × Body)) (sel : SelectedAccelerationMap)
    (cbs : List (String × String)) (m : AccelerationMap)
    (h : (createAccelerationModelsMap bm sel cbs).1 = .ok m) :
    referencedBodiesPresent bm cbs sel = true := by
  unfold createAccelerationModelsMap at h
  have hfull : buildForUndergoingBodies cbs sel
      { bodyMap := bm, freshFlightConditionsId := 0, modelsConstructed := 0 }
      = (.ok m, (buildForUndergoingBodies cbs sel
          { bodyMap := bm, freshFlightConditionsId := 0, modelsConstructed := 0 }).2) := by
    rw [← h]
  have hnames := buildForUndergoingBodies_ok_names cbs sel
    { bodyMap := bm, freshFlightConditionsId := 0, modelsConstructed := 0 } m _ hfull
  simp only [referencedBodiesPresent, List.all_eq_true, Bool.and_eq_true]
  intro p hp
  obtain ⟨h1, h2, h3⟩ := hnames p hp
  exact ⟨⟨h1, h2⟩, fun q hq => h3 q hq⟩

/-- Registry for the C6 runs: Earth and the vehicle, nothing else. -/
def bodyMapC6 : List (String × Body) := [("Earth", earthBody), ("Sat", satBody)]

/-- Request referencing the absent body "Zed" after a valid entry. -/
def selectedC6 : SelectedAccelerationMap :=
  [("Sat", [("Earth", [AccelerationSettings.centralGravity])]),
   ("Zed", [("Earth", [AccelerationSettings.centralGravity])])]

/-- Central-body declarations for the C6 runs. -/
def centralBodiesC6 : List (String × String) := [("Sat", "Earth"), ("Zed", "Earth")]

/-- Counterexample for C6: the absent undergoing body "Zed" does raise the
lookup error, but only after the valid entry ("Sat", "Earth") has already
had its model constructed: the failure is not raised before any model in
the run is constructed. -/
theorem lookupBeforeConstruction_counterexample :
    (createAccelerationModelsMap bodyMapC6 selectedC6 centralBodiesC6).1
      = .error ("Error when making acceleration models, requested forces"
          ++ "acting on body " ++ "Zed" ++ ", but no such body found in map of bodies")
    ∧ (createAccelerationModelsMap bodyMapC6 selectedC6 centralBodiesC6).2.modelsConstructed
      = 1 := ⟨rfl, rfl⟩

/-- The valid prefix of the C6 request alone. -/
def selectedC6ok : SelectedAccelerationMap :=
  [("Sat", [("Earth", [AccelerationSettings.centralGravity])])]

/-- The direct central-gravity model produced for the valid C6 entry. -/
def sampleDirectSatEarth : CentralGravitationalAccelerationModel3d :=
  { positionOfBodySubjectToAcceleration := satBody,
    gravitationalParameterFunction := .getGravitationalParameter earthField,
    positionOfBodyExertingAcceleration := earthBody }

/-- The acceleration map produced for the valid C6 request. -/
def accelerationMapC6ok : AccelerationMap :=
  [("Sat", [("Earth", [AccelerationModel3d.centralGravity sampleDirectSatEarth])])]

/-- Witness for the amended C6: a concrete successful assembly, whose
referenced names are therefore all present. -/
theorem assemblySuccess_impliesBodiesPresent_witness :
    referencedBodiesPresent bodyMapC6 centralBodiesC6 selectedC6ok = true :=
  assemblySuccess_impliesBodiesPresent bodyMapC6 selectedC6ok centralBodiesC6
    accelerationMapC6ok rfl

/-- A central-gravity dispatch on an exerting body without a gravity
field never succeeds: both the direct and the third-body branch call the
central-gravity builder on that exerting body, which throws. -/
lemma createAccelerationModel_centralGravity_noField
    (bodyU bodyE : Body) (nameU nameE : String) (cbO : Option Body) (nameC : String)
    (freshId : Nat) (hg : bodyE.gravityFieldModel = none)
    (r : AccelerationModel3d × Body × Nat) :
    createAccelerationModel bodyU bodyE .centralGravity nameU nameE cbO nameC freshId
      ≠ .ok r := by
  intro h
  simp only [createAccelerationModel] at h
  split at h
  · simp [createCentralGravityAcceleratioModel, hg, Except.map] at h
  · split at h
    · simp [createThirdBodyCentralGravityAccelerationModel,
        createCentralGravityAcceleratioModel, hg, Except.map, Except.bind, Bind.bind] at h
    · simp at h

/-- A successful inner loop implies the exerting body had a gravity field
whenever the settings list contained a central-gravity entry. -/
lemma buildAccelerationList_ok_noMissingField
    (nameU nameE : String) (cbO : Option Body) (nameC : String) :
    ∀ (ss : List AccelerationSettings) (st : AssemblyState)
      (r : List AccelerationModel3d) (st2 : AssemblyState),
      buildAccelerationList nameU nameE cbO nameC ss st = (.ok r, st2) →
      AccelerationSettings.centralGravity ∈ ss →
      gfmView st.bodyMap nameE ≠ some none := by
  intro ss
  induction ss with
  | nil =>
    intro st r st2 h hmem
    cases hmem
  | cons s rest ih =>
    intro st r st2 h hmem hgfm
    simp only [buildAccelerationList] at h
    split at h
    · rename_i bodyU bodyE h1 h2
      split at h
      · simp at h
      · rename_i rr model updatedBody nextFreshId hc
        rcases List.mem_cons.mp hmem with hs | hs
        · subst hs
          have hbE : bodyE.gravityFieldModel = none := by
            unfold gfmView at hgfm
            rw [h2] at hgfm
            simpa using hgfm
          exact createAccelerationModel_centralGravity_noField bodyU bodyE nameU nameE
            cbO nameC st.freshFlightConditionsId hbE
            (model, updatedBody, nextFreshId) hc
        · have hstep : gfmView (updateBody st.bodyMap nameU updatedBody) nameE
              = gfmView st.bodyMap nameE :=
            gfmView_updateBody st.bodyMap nameU bodyU updatedBody h1
              (createAccelerationModel_gravityField bodyU bodyE s nameU nameE cbO nameC
                st.freshFlightConditionsId model updatedBody nextFreshId hc) nameE
          split at h
          · rename_i models st3 hrec
            exact ih _ models st3 hrec hs (hstep.trans hgfm)
          · simp at h
    · simp at h

/-- A successful middle loop implies every visited exerting body owning a
central-gravity request had a gravity field. -/
lemma buildForExertingBodies_ok_noMissingField
    (nameU : String) (cbO : Option Body) (nameC : String) :
    ∀ (accs : List (String × List AccelerationSettings)) (st : AssemblyState)
      (r : List (String × List AccelerationModel3d)) (st2 : AssemblyState),
      buildForExertingBodies nameU cbO nameC accs st = (.ok r, st2) →
      ∀ q ∈ accs, AccelerationSettings.centralGravity ∈ q.2 →
        gfmView st.bodyMap q.1 ≠ some none := by
  intro accs
  induction accs with
  | nil =>
    intro st r st2 h q hq
    cases hq
  | cons p rest ih =>
    intro st r st2 h q hq hcg hgfm
    obtain ⟨nameE, ss⟩ := p
    simp only [buildForExertingBodies] at h
    split at h
    · simp at h
    · rename_i hE
      split at h
      · rename_i models st3 hb
        split at h
        · rename_i restMap st4 hrec
          rcases List.mem_cons.mp hq with hq1 | hq2
          · subst hq1
            exact buildAccelerationList_ok_noMissingField nameU nameE cbO nameC ss st
              models st3 hb hcg hgfm
          · have hinner := buildAccelerationList_gfmView nameU nameE cbO nameC ss st q.1
            rw [hb] at hinner
            exact ih st3 restMap st4 hrec q hq2 hcg (hinner.trans hgfm)
        · simp at h
      · simp at h

/-- A successful outer loop implies every central-gravity request in the
run had an exerting body with a gravity field at the starting state. -/
lemma buildForUndergoingBodies_ok_noMissingField (cbs : List (String × String)) :
    ∀ (sel : SelectedAccelerationMap) (st : AssemblyState) (r : AccelerationMap)
      (st2 : AssemblyState),
      buildForUndergoingBodies cbs sel st = (.ok r, st2) →
      ∀ p ∈ sel, ∀ q ∈ p.2, AccelerationSettings.centralGravity ∈ q.2 →
        gfmView st.bodyMap q.1 ≠ some none := by
  intro sel
  induction sel with
  | nil =>
    intro st r st2 h p hp
    cases hp
  | cons pr rest ih =>
    intro st r st2 h p hp q hq hcg hgfm
    obtain ⟨nameU, accs⟩ := pr
    simp only [buildForUndergoingBodies] at h
    split at h
    · simp at h
    · rename_i nameC hcb
      split at h
      · simp at h
      · rename_i currentCentralBody hres
        split at h
        · simp at h
        · rename_i hU
          split at h
          · rename_i mfb st3 hex
            split at h
            · rename_i restMap st4 hrec
              rcases List.mem_cons.mp hp with hp1 | hp2
              · subst hp1
                exact buildForExertingBodies_ok_noMissingField nameU currentCentralBody
                  nameC accs st mfb st3 hex q hq hcg hgfm
              · have hmid := buildForExertingBodies_gfmView nameU currentCentralBody nameC
                  accs st q.1
                rw [hex] at hmid
                exact ih st3 restMap st4 hrec p hp2 q hq hcg (hmid.trans hgfm)
            · simp at h
          · simp at h

/-- Claim C9: a central-gravity request whose exerting body owns no
gravity field fails with the missing-capability error naming both the
exerting and the undergoing body, and the assembler then yields no
acceleration map at all: no run containing such a request can return an
acceleration map. -/
theorem missingGravityField_atomicFailure :
    (∀ (bodyU bodyE : Body) (nameU nameE : String) (flag : Bool),
        bodyE.gravityFieldModel = none →
        createCentralGravityAcceleratioModel bodyU bodyE nameU nameE flag
          = .error ("Error, gravity field model not set when making central "
              ++ " gravitational acceleration of " ++ nameE ++ " on " ++ nameU))
    ∧ (∀ (bm : List (String × Body)) (sel : SelectedAccelerationMap)
        (cbs : List (String × String)) (nameU : String)
        (accs : List (String × List AccelerationSettings)) (nameE : String)
        (ss : List AccelerationSettings) (bodyE : Body),
        (nameU, accs) ∈ sel → (nameE, ss) ∈ accs →
        AccelerationSettings.centralGravity ∈ ss →
        lookupName bm nameE = some bodyE → bodyE.gravityFieldModel = none →
        ∀ m, (createAccelerationModelsMap bm sel cbs).1 ≠ .ok m) := by
  constructor
  · intro bodyU bodyE nameU nameE flag hg
    simp [createCentralGravityAcceleratioModel, hg]
  · intro bm sel cbs nameU accs nameE ss bodyE hpsel hqaccs hcg hE hg m h
    unfold createAccelerationModelsMap at h
    have hfull : buildForUndergoingBodies cbs sel
        { bodyMap := bm, freshFlightConditionsId := 0, modelsConstructed := 0 }
        = (.ok m, (buildForUndergoingBodies cbs sel
            { bodyMap := bm, freshFlightConditionsId := 0, modelsConstructed := 0 }).2) := by
      rw [← h]
    have hno := buildForUndergoingBodies_ok_noMissingField cbs sel
      { bodyMap := bm, freshFlightConditionsId := 0, modelsConstructed := 0 } m _ hfull
      (nameU, accs) hpsel (nameE, ss) hqaccs hcg
    apply hno
    show (lookupName bm nameE).map Body.gravityFieldModel = some none
    rw [hE]
    simp [hg]

/-- Witness for C9: Jupiter without a gravity field, a probe requesting
central gravity from it; the builder throws the error naming both, and
the concrete run returns no acceleration map. -/
theorem missingGravityField_atomicFailure_witness :
    createCentralGravityAcceleratioModel satBody sunBody "Probe" "Jupiter" false
      = .error ("Error, gravity field model not set when making central "
          ++ " gravitational acceleration of " ++ "Jupiter" ++ " on " ++ "Probe")
    ∧ (createAccelerationModelsMap
        [("Jupiter", sunBody), ("Probe", satBody)]
        [("Probe", [("Jupiter", [AccelerationSettings.centralGravity])])]
        [("Probe", "Jupiter")]).1 ≠ .ok [] :=
  ⟨missingGravityField_atomicFailure.1 satBody sunBody "Probe" "Jupiter" false rfl,
   missingGravityField_atomicFailure.2
     [("Jupiter", sunBody), ("Probe", satBody)]
     [("Probe", [("Jupiter", [AccelerationSettings.centralGravity])])]
     [("Probe", "Jupiter")] "Probe" [("Jupiter", [AccelerationSettings.centralGravity])]
     "Jupiter" [AccelerationSettings.centralGravity] sunBody
     (List.mem_singleton.mpr rfl) (List.mem_singleton.mpr rfl)
     (List.mem_singleton.mpr rfl) rfl rfl []⟩

/-- The vehicle after its first aerodynamic build attached flight
conditions instance 0. -/
def satBodyWithFc : Body := { satBody with flightConditions := some 0 }

/-- The aerodynamic model produced by the first sample build. -/
def satAeroModel : AerodynamicAcceleration :=
  { coefficientInterface := sampleCoefficients,
    flightConditions := 0,
    massBody := satBodyWithFc,
    referenceArea := 10,
    areCoefficientsInNegativeAxisDirection := true }

/-- Witness for C8: the concrete first aerodynamic build on the vehicle
attaches exactly flight-conditions instance 0 and advances the supply. -/
theorem aerodynamic_flightConditions_idempotent_witness :
    satBodyWithFc = { satBody with flightConditions := some 0 }
    ∧ (1 : Nat) = 0 + 1 ∧ satAeroModel.flightConditions = 0 :=
  (aerodynamic_flightConditions_idempotent satBody earthBody "Sat" "Earth" 0
    satAeroModel satBodyWithFc 1 rfl).2.1 rfl

end TudatSetup
